import Mathlib

/-!
Shallow embedding of the asyncftp FTP client (src/asyncftp) in Lean 4.

Python strings are modelled as Lean `String` (a structure over `List Char`);
Python string primitives (slicing, strip, split, startswith, int(), strptime)
are modelled by explicit functions on the underlying character lists.
Python exceptions are modelled by the `PyErr` inductive; fallible code
returns `Except PyErr _`, mirroring the `(result, error)` pairs the library
returns.  Each definition is annotated with the source function it embeds.
-/

namespace AsyncFTP

/-- Whitespace set of Python str.strip (ASCII part, which is all the code feeds it). -/
def isPySpace (c : Char) : Bool :=
  c = ' ' || c = '\t' || c = '\n' || c = '\r' || c = '\x0b' || c = '\x0c'

/-- Python str.strip on the character list: removes leading and trailing
whitespace.  The two ends are independent, so the order in which they are
handled does not change the result; the trailing end is handled first here. -/
def pyStripL (l : List Char) : List Char :=
  ((l.reverse.dropWhile isPySpace).reverse).dropWhile isPySpace

/-- Python str.strip. -/
def pyStrip (s : String) : String := ⟨pyStripL s.data⟩

/-- Python len(s). -/
def pyLen (s : String) : Nat := s.data.length

/-- Python s[i] as an optional lookup (a missing index raises IndexError at the call site). -/
def pyAt? (s : String) (i : Nat) : Option Char := s.data.get? i

/-- Python s[i:]. -/
def pySlice (s : String) (i : Nat) : String := ⟨s.data.drop i⟩

/-- Python s[:i]. -/
def pyTake (s : String) (i : Nat) : String := ⟨s.data.take i⟩

/-- Python s.startswith(pre). -/
def pyStartsWith (s pre : String) : Bool := pre.data.isPrefixOf s.data

/-- Python str.split on a one-character separator: cuts at every
occurrence, left to right. -/
def pySplitChar (sep : Char) : List Char → List (List Char)
  | [] => [[]]
  | c :: rest =>
    if c = sep then [] :: pySplitChar sep rest
    else
      match pySplitChar sep rest with
      | [] => [[c]]
      | l :: ls => (c :: l) :: ls

/-- Python str.split on a two-character separator: cuts at every
non-overlapping occurrence, left to right. -/
def pySplitPair (c1 c2 : Char) : List Char → List (List Char)
  | [] => [[]]
  | [c] => [[c]]
  | a :: b :: rest =>
    if a = c1 ∧ b = c2 then [] :: pySplitPair c1 c2 rest
    else
      match pySplitPair c1 c2 (b :: rest) with
      | [] => [[a]]
      | l :: ls => (a :: l) :: ls

/-- Python s.split(sep) for the one-character separators the code uses. -/
def pySplit1 (s : String) (sep : Char) : List String :=
  (pySplitChar sep s.data).map (fun l => ⟨l⟩)

/-- Python s.split(sep) for the two-character separator the listing parser uses. -/
def pySplit2 (s : String) (c1 c2 : Char) : List String :=
  (pySplitPair c1 c2 s.data).map (fun l => ⟨l⟩)

/-- Python sep.join(parts). -/
def pyJoin (sep : String) : List String → String
  | [] => ""
  | [x] => x
  | x :: xs => x ++ sep ++ pyJoin sep xs

/-- Python int() applied to the digits of a numeric string. -/
def digitsToNat (l : List Char) : Nat :=
  l.foldl (fun acc c => 10 * acc + (c.toNat - '0'.toNat)) 0

/-- Python int(s): strips whitespace, accepts an optional sign followed by
digits, raises ValueError (here: `none`) otherwise. -/
def pyInt? (s : String) : Option Int :=
  let l := pyStripL s.data
  match l with
  | '-' :: rest =>
    if rest ≠ [] && rest.all Char.isDigit then some (-(digitsToNat rest : Int)) else none
  | '+' :: rest =>
    if rest ≠ [] && rest.all Char.isDigit then some ((digitsToNat rest : Int)) else none
  | _ =>
    if l ≠ [] && l.all Char.isDigit then some ((digitsToNat l : Int)) else none

/-- Python exceptions raised by the embedded code, including the library
exception hierarchy from src/asyncftp/common/exceptions.py. -/
inductive PyErr where
  | indexError
  | typeError
  | valueError
  | keyError
  | attributeError
  | ftpException (msg : String)
  | ftpResponseException (code : String) (messages : List String)
  | ftpResponseExpectationException (code : String) (messages : List String) (expected : List String)
  | ftpCommandException (command : String) (code : String) (messages : List String)
  | ftpAuthenticationException (code : String) (messages : List String)
deriving DecidableEq, Repr

/-- FTPResponse from src/asyncftp/connection.py.  The code field is declared
as str in the source but `__read_response` can leave it at its initial
value None, so it is an Option here. -/
structure FTPResponse where
  code : Option String
  messages : List String
deriving DecidableEq, Repr

/-- FTPResponse.expect (connection.py lines 24-29).
Python: `if self.code in expect: return True` then
`if self.code[0] == "5": raise FTPResponseException(...)` else
`raise FTPResponseExpectationException(...)`.
A None code fails the membership test and then raises TypeError at the
subscript; an empty code raises IndexError there. -/
def FTPResponse.expect (r : FTPResponse) (expected : List String) : Except PyErr Bool :=
  match r.code with
  | some c =>
    if c ∈ expected then .ok true
    else
      match c.data with
      | [] => .error .indexError
      | ch :: _ =>
        if ch = '5' then .error (.ftpResponseException c r.messages)
        else .error (.ftpResponseExpectationException c r.messages expected)
  | none => .error .typeError

/-- FTPResponse.more_messages (connection.py lines 31-34). -/
def FTPResponse.more_messages (r : FTPResponse) : Except PyErr Bool :=
  match r.code with
  | some c =>
    match c.data with
    | [] => .error .indexError
    | ch :: _ => .ok (ch = '1')
  | none => .error .typeError

/-- FTPPacketizer.process_buffer (src/asyncftp/network/packetizer.py lines 8-18):
repeatedly finds the first LF in the buffer, emits everything before it as one
framed line (any CR is kept), and keeps the remainder after the last LF
buffered.  Returns (framed lines, leftover buffer). -/
def process_buffer : List Char → List (List Char) × List Char
  | [] => ([], [])
  | c :: rest =>
    let r := process_buffer rest
    if c = '\n' then ([] :: r.1, r.2)
    else
      match r with
      | ([], rem) => ([], c :: rem)
      | (l :: ls, rem) => ((c :: l) :: ls, rem)

/-- Framed lines of a byte stream, as Strings (packetizer yields temp.decode()). -/
def frameLines (s : String) : List String :=
  (process_buffer s.data).1.map (fun l => ⟨l⟩)

/-- Loop body of FTPClientConnection.__read_response (connection.py lines 146-163)
after the first line fixed the code `rcode`: each further framed line is
appended verbatim unless it starts with `rcode ++ " "`, in which case the text
after that prefix is stripped, appended, and reading stops.  Reaching the end
of the line stream simply stops (Python: read_one returning None breaks the
loop). -/
def readResponseLoop (rcode : String) : List String → List String
  | [] => []
  | line :: rest =>
    if pyStartsWith line (rcode ++ " ") then
      [pyStrip (pySlice line (pyLen rcode + 1))]
    else
      line :: readResponseLoop rcode rest

/-- FTPClientConnection.__read_response (connection.py lines 137-166), with the
transport modelled as the list of framed lines read_one would yield (the list
ending means read_one returned None).  With no line at all it returns
FTPResponse(None, []) with no error; `line[3]` on a first line shorter than 4
characters raises IndexError, which the method catches and returns as the
error of a (None, error) pair, modelled by `Except.error`. -/
def readResponse : List String → Except PyErr FTPResponse
  | [] => .ok ⟨none, []⟩
  | first :: rest =>
    if pyLen first < 4 then .error .indexError
    else
      let toContinue := pyAt? first 3 == some '-'
      let rcode := pyTake first 3
      let msg0 := pyStrip (pySlice first 4)
      if toContinue then .ok ⟨some rcode, msg0 :: readResponseLoop rcode rest⟩
      else .ok ⟨some rcode, [msg0]⟩

/-- Byte stream of the control channel fed through the line framer and then
the reply reader: the composition of FTPPacketizer.process_buffer and
FTPClientConnection.__read_response. -/
def ftpReplyOfStream (s : String) : Except PyErr FTPResponse :=
  readResponse (frameLines s)

/-- Protocol variant of a target; the code only ever builds CLIENT_TCP targets. -/
inductive UniProtoM where
  | clientTcp
deriving DecidableEq, Repr

/-- FTPTarget (src/asyncftp/common/target.py lines 13-16).  Field defaults are
the Python keyword defaults of FTPTarget.__init__ / UniTarget.__init__:
port 21, protocol CLIENT_TCP, timeout 10, hostname None, proxies None,
domain None, dc_ip None, dns None, passive True.  Proxy chain entries are
opaque to this code, so they are modelled as abstract tokens (Strings). -/
structure FTPTarget where
  ip : String
  port : Int := 21
  protocol : UniProtoM := .clientTcp
  timeout : Int := 10
  hostname : Option String := none
  proxies : Option (List String) := none
  domain : Option String := none
  dc_ip : Option String := none
  dns : Option String := none
  passive : Bool := true
deriving DecidableEq, Repr

/-- Scan for the first closing parenthesis, the characters before it being the
lazy group body; fails at a newline (the dot of the pattern does not match
newline) or at the end of the string. -/
def scanClose : List Char → Option (List Char)
  | [] => none
  | c :: rest =>
    if c = ')' then some []
    else if c = '\n' then none
    else (scanClose rest).map (fun l => c :: l)

/-- Python re.search of the pattern for a lazy parenthesized group, returning
group 1: the earliest opening parenthesis that is followed by a closing one
wins, and the group body runs to the first closing parenthesis after it. -/
def extractParen : List Char → Option String
  | [] => none
  | c :: rest =>
    if c = '(' then
      match scanClose rest with
      | some inner => some ⟨inner⟩
      | none => extractParen rest
    else extractParen rest

/-- FTPClientConnection.__pasv (connection.py lines 483-502) from the point
where __read_response has produced a response, paired with the control
connection target (self.target).  Mirrors the source statement by statement:
expect(["227"]); re.search of the parenthesized group over messages[0]
(IndexError if messages is empty; when the search finds nothing it returns
None and the immediate .group(1) raises AttributeError, so the
`if passive_def is None: raise FTPCommandException(...)` line of the source is
unreachable); then ip = ".".join of the first four comma fields and
port = int(field 4) * 256 + int(field 5), with IndexError and ValueError
raised in that order; finally a fresh FTPTarget carrying only ip, port and a
deep copy of the control target proxy chain, every other field a default. -/
def pasv_parse (resp : FTPResponse) (ctrl : FTPTarget) : Except PyErr FTPTarget := do
  _ ← resp.expect ["227"]
  match resp.messages with
  | [] => .error .indexError
  | m :: _ =>
    match extractParen m.data with
    | none => .error .attributeError
    | some passive_def =>
      let parts := pySplit1 passive_def ','
      let passive_ip := pyJoin "." (parts.take 4)
      match parts.get? 4 with
      | none => .error .indexError
      | some s4 =>
        match pyInt? s4 with
        | none => .error .valueError
        | some p1 =>
          match parts.get? 5 with
          | none => .error .indexError
          | some s5 =>
            match pyInt? s5 with
            | none => .error .valueError
            | some p2 =>
              .ok { ip := passive_ip, port := p1 * 256 + p2, proxies := ctrl.proxies }

/-- Naive Gregorian datetime, the image of datetime.datetime.strptime here. -/
structure PyDateTime where
  year : Nat
  month : Nat
  day : Nat
  hour : Nat
  minute : Nat
  second : Nat
deriving DecidableEq, Repr

/-- Gregorian leap year rule. -/
def isLeapYear (y : Nat) : Bool :=
  (y % 4 == 0 && y % 100 != 0) || y % 400 == 0

/-- Days in a month of a given year. -/
def daysInMonth (y m : Nat) : Nat :=
  if m = 2 then (if isLeapYear y then 29 else 28)
  else if m = 4 ∨ m = 6 ∨ m = 9 ∨ m = 11 then 30
  else 31

/-- datetime.datetime.strptime(value, fourteen-digit timestamp format):
the pattern demands exactly 4+2+2+2+2+2 digits consuming the whole string,
and the datetime constructor validates the field ranges; any failure raises
ValueError (here: `none`). -/
def strptime14 (s : String) : Option PyDateTime :=
  let l := s.data
  if l.length = 14 && l.all Char.isDigit then
    let y := digitsToNat (l.take 4)
    let mo := digitsToNat ((l.drop 4).take 2)
    let d := digitsToNat ((l.drop 6).take 2)
    let h := digitsToNat ((l.drop 8).take 2)
    let mi := digitsToNat ((l.drop 10).take 2)
    let sec := digitsToNat ((l.drop 12).take 2)
    if 1 ≤ y ∧ y ≤ 9999 ∧ 1 ≤ mo ∧ mo ≤ 12 ∧ 1 ≤ d ∧ d ≤ daysInMonth y mo
        ∧ h ≤ 23 ∧ mi ≤ 59 ∧ sec ≤ 59 then
      some ⟨y, mo, d, h, mi, sec⟩
    else none
  else none

/-- Value stored in a directory-entry dict: facts stay strings except that
the size fact is parsed to an integer and the modify fact to a datetime. -/
inductive FactVal where
  | str (s : String)
  | num (n : Int)
  | dt (d : PyDateTime)
deriving DecidableEq, Repr

/-- Python dict with insertion order, as the entry dict of parse_mlsd_line. -/
abbrev PyDict := List (String × FactVal)

/-- Python dict assignment: replaces the value in place if the key exists,
appends otherwise. -/
def dictSet (d : PyDict) (k : String) (v : FactVal) : PyDict :=
  match d with
  | [] => [(k, v)]
  | (k', v') :: rest => if k' = k then (k, v) :: rest else (k', v') :: dictSet rest k v

/-- Python dict lookup, None when the key is missing (the sites that index
directly raise KeyError on None). -/
def dictGet? (d : PyDict) (k : String) : Option FactVal :=
  (d.find? (fun p => p.1 == k)).map (fun p => p.2)

/-- os.path.join(basepath, fname) for POSIX paths with two arguments. -/
def pyPathJoin (a b : String) : String :=
  if pyStartsWith b "/" then b
  else if a = "" then b
  else if (pyStartsWith (⟨a.data.reverse⟩ : String) "/") then a ++ b
  else a ++ "/" ++ b

/-- Fact loop of parse_mlsd_line (connection.py lines 56-63): each part must
split on "=" into exactly two pieces (the tuple unpacking raises ValueError
otherwise); a modify value goes through strptime, a size value through int(),
anything else is stored verbatim. -/
def applyFacts (entry : PyDict) : List String → Except PyErr PyDict
  | [] => .ok entry
  | part :: rest =>
    match pySplit1 part '=' with
    | [key, value] =>
      if key = "modify" then
        match strptime14 value with
        | some dtv => applyFacts (dictSet entry key (.dt dtv)) rest
        | none => .error .valueError
      else if key = "size" then
        match pyInt? value with
        | some n => applyFacts (dictSet entry key (.num n)) rest
        | none => .error .valueError
      else applyFacts (dictSet entry key (.str value)) rest
    | _ => .error .valueError

/-- parse_mlsd_line (connection.py lines 49-64).  The line is stripped, then
`parts, fname = line.split("; ")` unpacks the split into exactly two pieces
(one or three or more pieces raise ValueError); the entry dict starts with
name, fullpath = os.path.join(basepath, fname) and size = 0, then the fact
list (split on ";") is applied in order. -/
def parse_mlsd_line (line : String) (basepath : String := "") : Except PyErr PyDict :=
  let line := pyStrip line
  match pySplit2 line ';' ' ' with
  | [parts, fname] =>
    let entry : PyDict :=
      [("name", .str fname), ("fullpath", .str (pyPathJoin basepath fname)), ("size", .num 0)]
    applyFacts entry (pySplit1 parts ';')
  | _ => .error .valueError

/-- Connection-session state relevant to disconnect: the transport reference
(opaque handle) and the one-shot closed event. -/
structure SessionState where
  network_connection : Option Unit
  connection_closed_evt : Bool
deriving DecidableEq, Repr

/-- FTPClientConnection.disconnect (connection.py lines 216-228).  When a
transport exists: best-effort QUIT with the result discarded, transport
close, reference set to None, closed event set.  When the transport
reference is already None the body is skipped entirely, so nothing can
raise; QUIT and close touch only the external transport, so the session
state transformer is total. -/
def disconnect (s : SessionState) : SessionState :=
  match s.network_connection with
  | none => s
  | some _ => { network_connection := none, connection_closed_evt := true }

/-- Item of the streams yielded by enum_all: entry-or-None paired with
error-or-None (the name component mlsd also yields is unused by enum_all). -/
abbrev EnumItem := Option PyDict × Option PyErr

/-- Abstraction of the network behind FTPClientConnection.mlsd for the
enumerator: for each path, the parsed entries it yields in order, and an
optional trailing error.  mlsd (connection.py lines 580-610) yields each
parsed entry as (name, entry, None) and, whenever any step of the command
raises, one final (None, None, error) item, after which the stream ends;
a listing that cannot even start is ([], some error). -/
abbrev FTPServer := String → List PyDict × Option PyErr

/-- Loop body of FTPClientConnection.enum_all (connection.py lines 898-912)
over the successfully parsed entries of one directory listing: returns the
items yielded at this level, the pending subdirectory paths collected for
later recursion, and the exception, if any, that aborted the loop.
Per the source: entry["type"] is looked up (KeyError aborts before the entry
is yielded); an entry the filter rejects is skipped entirely; an accepted
entry is yielded with error None; when its type is "dir" and depth > 0 its
fullpath is appended to the pending list (a missing or non-string fullpath
raises after the yield, aborting the loop). -/
def enumLevel (filt : Option (FactVal → PyDict → Bool)) (depth : Int) :
    List PyDict → List EnumItem × List String × Option PyErr
  | [] => ([], [], none)
  | e :: rest =>
    match dictGet? e "type" with
    | none => ([], [], some .keyError)
    | some tv =>
      if (match filt with | some f => f tv e | none => true) = false then
        enumLevel filt depth rest
      else
        if tv = .str "dir" ∧ 0 < depth then
          match dictGet? e "fullpath" with
          | some (.str fp) =>
            let r := enumLevel filt depth rest
            ((some e, none) :: r.1, fp :: r.2.1, r.2.2)
          | some _ => ([(some e, none)], [], some .typeError)
          | none => ([(some e, none)], [], some .keyError)
        else
          let r := enumLevel filt depth rest
          ((some e, none) :: r.1, r.2.1, r.2.2)

/-- FTPClientConnection.enum_all (connection.py lines 892-920), fuelled for
structural termination; `enum_all` below supplies fuel strictly larger than
depth.toNat, which is always sufficient because pending subdirectories are
only ever collected when 0 < depth and recursion passes depth - 1.
One call: drive the mlsd stream of `path` (entries, then the trailing error
item if any, which is yielded as (None, error) and does not stop the dirs
phase); if the entry loop itself raised, yield (None, exception) and stop;
finally recurse into each pending subdirectory with depth - 1, re-yielding
every item of the recursive stream with its error component replaced by
None (the source writes `yield data, None`). -/
def enum_allAux (srv : FTPServer) (filt : Option (FactVal → PyDict → Bool)) :
    Nat → Int → String → List EnumItem
  | 0, _, _ => []
  | fuel + 1, depth, path =>
    let res := srv path
    let r := enumLevel filt depth res.1
    match r.2.2 with
    | some e => r.1 ++ [(none, some e)]
    | none =>
      let errItem : List EnumItem :=
        match res.2 with
        | some e => [(none, some e)]
        | none => []
      r.1 ++ errItem
        ++ r.2.1.flatMap (fun d => (enum_allAux srv filt fuel (depth - 1) d).map (fun q => (q.1, none)))

/-- FTPClientConnection.enum_all at its call interface (path, depth, filter). -/
def enum_all (srv : FTPServer) (filt : Option (FactVal → PyDict → Bool))
    (depth : Int) (path : String) : List EnumItem :=
  enum_allAux srv filt (depth.toNat + 1) depth path

/-- Concrete directory entry: a subdirectory named dir1 of the root. -/
def entD : PyDict :=
  [("name", .str "dir1"), ("fullpath", .str "/dir1"),
   ("size", .num 0), ("type", .str "dir")]

/-- Concrete directory entry: a plain file in the root. -/
def entA : PyDict :=
  [("name", .str "a.txt"), ("fullpath", .str "/a.txt"),
   ("size", .num 3), ("type", .str "file")]

/-- Concrete server: the root lists a subdirectory and a file; listing the
subdirectory fails outright. -/
def srvC7 : FTPServer := fun p =>
  if p = "/" then ([entD, entA], none)
  else if p = "/dir1" then ([], some (.ftpException "boom"))
  else ([], none)

/-- Control-channel byte stream consisting of the given lines, each
terminated by CRLF. -/
def wire (lines : List String) : String :=
  lines.foldr (fun l acc => l ++ "\r\n" ++ acc) ""

end AsyncFTP

deriving instance DecidableEq for Except

namespace AsyncFTP

/-- C3: FTPResponse.expect succeeds exactly on an expected code; an
unexpected code whose first digit is 5 raises the permanent-failure error
FTPResponseException carrying code and messages; an unexpected code whose
first digit is not 5 raises the expectation-mismatch error
FTPResponseExpectationException carrying code, messages and the original
expected set. -/
theorem c3_expect_classifies (c : String) (msgs expected : List String) :
    (c ∈ expected → FTPResponse.expect ⟨some c, msgs⟩ expected = .ok true)
    ∧ (c ∉ expected → ∀ ch rest, c.data = ch :: rest → ch = '5' →
        FTPResponse.expect ⟨some c, msgs⟩ expected
          = .error (.ftpResponseException c msgs))
    ∧ (c ∉ expected → ∀ ch rest, c.data = ch :: rest → ch ≠ '5' →
        FTPResponse.expect ⟨some c, msgs⟩ expected
          = .error (.ftpResponseExpectationException c msgs expected)) := by
  refine ⟨fun h => by simp [FTPResponse.expect, h], ?_, ?_⟩
  · intro h ch rest hdata h5
    simp [FTPResponse.expect, h, hdata, h5]
  · intro h ch rest hdata h5
    simp [FTPResponse.expect, h, hdata, h5]

/-- Witness for C3 at the concrete codes 230 (accepted), 550 (permanent
failure) and 331 (expectation mismatch). -/
theorem c3_expect_classifies_witness :
    FTPResponse.expect ⟨some "230", ["ok"]⟩ ["230", "232"] = .ok true
    ∧ FTPResponse.expect ⟨some "550", ["no"]⟩ ["230"]
        = .error (.ftpResponseException "550" ["no"])
    ∧ FTPResponse.expect ⟨some "331", ["pw"]⟩ ["230"]
        = .error (.ftpResponseExpectationException "331" ["pw"] ["230"]) :=
  ⟨(c3_expect_classifies "230" ["ok"] ["230", "232"]).1 (by decide),
   (c3_expect_classifies "550" ["no"] ["230"]).2.1 (by decide) '5' ['5', '0'] (by decide) rfl,
   (c3_expect_classifies "331" ["pw"] ["230"]).2.2 (by decide) '3' ['3', '1'] (by decide) (by decide)⟩

/-- C9: disconnect is idempotent, and on an already-disconnected session it
is a no-op: the transport reference stays None, the closed-event flag is
untouched (so it stays signalled), and nothing can raise since the whole
body is guarded by the transport reference being non-None. -/
theorem c9_disconnect_idempotent (s : SessionState) :
    disconnect (disconnect s) = disconnect s
    ∧ (s.network_connection = none → disconnect s = s) := by
  obtain ⟨conn, evt⟩ := s
  cases conn <;> simp [disconnect]

/-- Witness for C9 at the concrete already-disconnected state. -/
theorem c9_disconnect_idempotent_witness :
    disconnect (disconnect ⟨none, true⟩) = disconnect ⟨none, true⟩
    ∧ disconnect ⟨none, true⟩ = ⟨none, true⟩ :=
  ⟨(c9_disconnect_idempotent ⟨none, true⟩).1,
   (c9_disconnect_idempotent ⟨none, true⟩).2 rfl⟩

/-- C10: when the first framed line of a reply is shorter than 4 characters,
the subscript line[3] in __read_response raises IndexError, which the
method catches and returns as (None, error): the reply is never accepted. -/
theorem c10_short_first_line (first : String) (rest : List String)
    (h : pyLen first < 4) :
    readResponse (first :: rest) = .error .indexError := by
  simp [readResponse, h]

/-- Witness for C10 at the bare code-only framed line "220". -/
theorem c10_short_first_line_witness :
    pyLen "220" < 4 ∧ readResponse ["220"] = .error .indexError :=
  ⟨by decide, c10_short_first_line "220" [] (by decide)⟩

/-- C2 counterexample: when the transport yields no line at all,
__read_response does NOT report an error: it returns the pair
(FTPResponse(None, []), None), a reply with a None code and an empty message
list; likewise a stream ending mid-multi-line reply returns the partial
reply without error.  This falsifies both halves of the claim (an error is
reported; a returned reply has a 3-digit code and a nonempty message list). -/
theorem c2_counterexample :
    readResponse [] = .ok ⟨none, []⟩
    ∧ readResponse ["227-a\r"] = .ok ⟨some "227", ["a"]⟩
    ∧ (⟨none, []⟩ : FTPResponse).code = none
    ∧ (⟨none, []⟩ : FTPResponse).messages = [] :=
  ⟨rfl, by decide, rfl, rfl⟩

/-- C2 amended: if the transport yields no line the reply reader returns,
without error, the reply (None, []); if it ends mid-reply after a
well-formed first line it returns the partial reply without error (code
taken from the first 3 characters, at least one message).  The failure only
surfaces downstream: validating a None-code reply raises TypeError at the
subscript in expect. -/
theorem c2_amended :
    readResponse [] = .ok ⟨none, []⟩
    ∧ (∀ expected, FTPResponse.expect ⟨none, []⟩ expected = .error .typeError)
    ∧ (∀ (first : String) (rest : List String), 4 ≤ pyLen first →
        ∃ r, readResponse (first :: rest) = .ok r
          ∧ r.code = some (pyTake first 3) ∧ r.messages ≠ []) := by
  refine ⟨rfl, fun _ => rfl, ?_⟩
  intro first rest h
  simp only [readResponse]
  rw [if_neg (by omega)]
  cases hb : (pyAt? first 3 == some '-') <;> simp [hb]

/-- Witness for C2's amended statement at a concrete truncated stream. -/
theorem c2_amended_witness :
    readResponse [] = .ok ⟨none, []⟩
    ∧ FTPResponse.expect ⟨none, []⟩ ["220"] = .error .typeError
    ∧ ∃ r, readResponse ["227-a\r"] = .ok r
        ∧ r.code = some (pyTake "227-a\r" 3) ∧ r.messages ≠ [] :=
  ⟨c2_amended.1, c2_amended.2.1 ["220"], c2_amended.2.2 "227-a\r" [] (by decide)⟩

/-- C6: on a 227 reply with no parenthesized group, __pasv does not raise
the FTPCommandException naming PASV that its own source constructs for this
case: re.search returns None and the immediate .group(1) call raises
AttributeError first, so the command-error branch is dead code and the
returned error is the AttributeError. -/
theorem c6_pasv_missing_group :
    pasv_parse ⟨some "227", ["Entering Passive Mode."]⟩ { ip := "192.0.2.1" }
      = .error .attributeError
    ∧ (.error .attributeError : Except PyErr FTPTarget)
        ≠ .error (.ftpCommandException "PASV" "227" ["Entering Passive Mode."]) :=
  ⟨by decide, by decide⟩

/-- C4 counterexample: parse_mlsd_line does not split once on the first
occurrence of the fact separator: `line.split("; ")` splits on every
occurrence and the tuple unpacking demands exactly two pieces, so a line
whose filename itself contains the separator raises ValueError instead of
parsing with the full filename. -/
theorem c4_counterexample :
    parse_mlsd_line "size=1234;type=file; report; v2.txt" "/data" = .error .valueError := by
  decide

/-- C4 amended: the reference line parses exactly as claimed, but the
splitting demands exactly one occurrence of the fact separator: whenever
splitting the stripped line on the separator yields anything other than two
pieces, the unpacking raises ValueError and the line does not parse. -/
theorem c4_amended :
    parse_mlsd_line "size=1234;modify=20240101120000;type=file; report.txt" "/data"
      = .ok [("name", .str "report.txt"),
             ("fullpath", .str "/data/report.txt"),
             ("size", .num 1234),
             ("modify", .dt ⟨2024, 1, 1, 12, 0, 0⟩),
             ("type", .str "file")]
    ∧ (∀ line basepath, (pySplit2 (pyStrip line) ';' ' ').length ≠ 2 →
        parse_mlsd_line line basepath = .error .valueError) := by
  refine ⟨by decide, ?_⟩
  intro line bp h
  simp only [parse_mlsd_line]
  rcases hs : pySplit2 (pyStrip line) ';' ' ' with _ | ⟨x, _ | ⟨y, _ | ⟨z, rest⟩⟩⟩
  · rfl
  · rfl
  · rw [hs] at h; simp at h
  · rfl

/-- Witness for C4's amended statement: a line with no separator at all
fails with ValueError. -/
theorem c4_amended_witness :
    parse_mlsd_line "noseparator" "/data" = .error .valueError :=
  c4_amended.2 "noseparator" "/data" (by decide)

/-- C5: for every 227 reply whose first message contains a parenthesized
6-tuple, __pasv returns a data-channel target whose IP is the dot-join of
the first four fields and whose port is field4 * 256 + field5, and the new
target inherits exactly the control target proxy chain while every other
field (passive, hostname, timeout, ...) is a fresh constructor default.
The model is a pure function of the control target, which is therefore
unchanged. -/
theorem c5_pasv_tuple (m : String) (ctrl : FTPTarget) (g a b c d s4 s5 : String)
    (p1 p2 : Int)
    (hg : extractParen m.data = some g)
    (hsplit : pySplit1 g ',' = [a, b, c, d, s4, s5])
    (hp1 : pyInt? s4 = some p1) (hp2 : pyInt? s5 = some p2) :
    pasv_parse ⟨some "227", [m]⟩ ctrl
      = .ok { ip := pyJoin "." [a, b, c, d], port := p1 * 256 + p2,
              protocol := .clientTcp, timeout := 10, hostname := none,
              proxies := ctrl.proxies, domain := none, dc_ip := none,
              dns := none, passive := true } := by
  simp [pasv_parse, FTPResponse.expect, hg, hsplit, hp1, hp2]
  rfl

/-- Witness for C5 at the reference reply, against a control target with
every field set away from its default: only the proxy chain is inherited. -/
theorem c5_pasv_tuple_witness :
    pasv_parse ⟨some "227", ["Entering Passive Mode (127,0,0,1,19,136)."]⟩
        { ip := "203.0.113.9", port := 2121, timeout := 77, hostname := some "ftp.example",
          proxies := some ["socks5:first", "socks5:second"], domain := some "EX",
          dc_ip := some "10.0.0.9", dns := some "10.0.0.53", passive := false }
      = .ok { ip := pyJoin "." ["127", "0", "0", "1"], port := 19 * 256 + 136,
              protocol := .clientTcp, timeout := 10, hostname := none,
              proxies := some ["socks5:first", "socks5:second"], domain := none,
              dc_ip := none, dns := none, passive := true }
    ∧ pyJoin "." ["127", "0", "0", "1"] = "127.0.0.1"
    ∧ (19 * 256 + 136 : Int) = 5000 :=
  ⟨c5_pasv_tuple "Entering Passive Mode (127,0,0,1,19,136)." _
      "127,0,0,1,19,136" "127" "0" "0" "1" "19" "136" 19 136
      (by decide) (by decide) (by decide) (by decide),
   by decide, by norm_num⟩

end AsyncFTP

namespace AsyncFTP

/-- Pointwise-equal functions give equal flatMaps. -/
theorem flatMap_congr_fun {α β : Type} (l : List α) (f g : α → List β)
    (h : ∀ a ∈ l, f a = g a) : l.flatMap f = l.flatMap g := by
  induction l with
  | nil => rfl
  | cons x xs ih =>
    simp only [List.flatMap_cons, h x (List.mem_cons_self x xs)]
    rw [ih (fun a ha => h a (List.mem_cons_of_mem x ha))]

/-- Every item the entry loop of enum_all yields at its own level is a
(some entry, None) pair. -/
theorem enumLevel_mem_items (filt : Option (FactVal → PyDict → Bool)) (depth : Int) :
    ∀ es (p : EnumItem), p ∈ (enumLevel filt depth es).1 → ∃ e, p = (some e, none) := by
  intro es
  induction es with
  | nil => intro p hp; simp [enumLevel] at hp
  | cons e rest ih =>
    intro p hp
    simp only [enumLevel] at hp
    split at hp
    · simp at hp
    · split at hp
      · exact ih p hp
      · split at hp
        · split at hp
          · rcases List.mem_cons.mp hp with rfl | h
            · exact ⟨e, rfl⟩
            · exact ih p h
          · rcases List.mem_singleton.mp hp with rfl
            exact ⟨e, rfl⟩
          · rcases List.mem_singleton.mp hp with rfl
            exact ⟨e, rfl⟩
        · rcases List.mem_cons.mp hp with rfl | h
          · exact ⟨e, rfl⟩
          · exact ih p h

/-- The entry loop only collects pending subdirectories when 0 < depth. -/
theorem enumLevel_dirs_pos (filt : Option (FactVal → PyDict → Bool)) (depth : Int) :
    ∀ es d, d ∈ (enumLevel filt depth es).2.1 → 0 < depth := by
  intro es
  induction es with
  | nil => intro d hd; simp [enumLevel] at hd
  | cons e rest ih =>
    intro d hd
    simp only [enumLevel] at hd
    split at hd
    · simp at hd
    · split at hd
      · exact ih d hd
      next tv hf =>
        split at hd
        next hdir =>
          split at hd
          · rcases List.mem_cons.mp hd with rfl | h
            · exact hdir.2
            · exact ih d h
          · simp at hd
          · simp at hd
        · exact ih d hd

/-- Any sufficiently large fuel computes the same enum_allAux stream. -/
theorem enum_allAux_fuel (srv : FTPServer) (filt : Option (FactVal → PyDict → Bool)) :
    ∀ f g (depth : Int) (path : String), depth.toNat < f → depth.toNat < g →
      enum_allAux srv filt f depth path = enum_allAux srv filt g depth path := by
  intro f
  induction f with
  | zero => intro g depth path hf _; exact absurd hf (Nat.not_lt_zero _)
  | succ f ih =>
    intro g depth path hf hg
    cases g with
    | zero => exact absurd hg (Nat.not_lt_zero _)
    | succ g =>
      simp only [enum_allAux]
      cases hexc : (enumLevel filt depth (srv path).1).2.2 with
      | some e => rfl
      | none =>
        dsimp only
        congr 1
        apply flatMap_congr_fun
        intro d hd
        have hpos : 0 < depth := enumLevel_dirs_pos filt depth (srv path).1 d hd
        rw [ih g (depth - 1) d (by omega) (by omega)]

/-- One-step unfolding of enum_all in terms of enum_all itself: the level
items come first, then the trailing listing error (if any) as a
(None, error) pair, then the concatenated recursive streams of every
pending subdirectory with all their error components replaced by None. -/
theorem enum_all_eq (srv : FTPServer) (filt : Option (FactVal → PyDict → Bool))
    (depth : Int) (path : String) :
    enum_all srv filt depth path =
      (match (enumLevel filt depth (srv path).1).2.2 with
       | some e => (enumLevel filt depth (srv path).1).1 ++ [(none, some e)]
       | none =>
         (enumLevel filt depth (srv path).1).1
           ++ (match (srv path).2 with | some e => [(none, some e)] | none => [])
           ++ (enumLevel filt depth (srv path).1).2.1.flatMap
                (fun d => (enum_all srv filt (depth - 1) d).map (fun q => (q.1, none)))) := by
  rw [show enum_all srv filt depth path
        = enum_allAux srv filt (depth.toNat + 1) depth path from rfl]
  simp only [enum_allAux]
  cases hexc : (enumLevel filt depth (srv path).1).2.2 with
  | some e => rfl
  | none =>
    dsimp only
    congr 1
    apply flatMap_congr_fun
    intro d hd
    have hpos : 0 < depth := enumLevel_dirs_pos filt depth (srv path).1 d hd
    have h1 : enum_all srv filt (depth - 1) d
        = enum_allAux srv filt ((depth - 1).toNat + 1) (depth - 1) d := rfl
    rw [h1, enum_allAux_fuel srv filt (depth.toNat) ((depth - 1).toNat + 1) (depth - 1) d
        (by omega) (by omega)]

/-- Every error in an enum_all stream is paired with a None entry. -/
theorem enum_allAux_err_null (srv : FTPServer) (filt : Option (FactVal → PyDict → Bool)) :
    ∀ fuel (depth : Int) (path : String) (p : EnumItem),
      p ∈ enum_allAux srv filt fuel depth path → p.2 ≠ none → p.1 = none := by
  intro fuel
  induction fuel with
  | zero => intro depth path p hp _; simp [enum_allAux] at hp
  | succ fuel ih =>
    intro depth path p hp hne
    simp only [enum_allAux] at hp
    split at hp
    · rcases List.mem_append.mp hp with h | h
      · obtain ⟨e, rfl⟩ := enumLevel_mem_items filt depth (srv path).1 p h
        exact absurd rfl hne
      · rcases List.mem_singleton.mp h with rfl
        rfl
    · rcases List.mem_append.mp hp with h | h
      · rcases List.mem_append.mp h with h2 | h2
        · obtain ⟨e, rfl⟩ := enumLevel_mem_items filt depth (srv path).1 p h2
          exact absurd rfl hne
        · split at h2
          · rcases List.mem_singleton.mp h2 with rfl
            rfl
          · simp at h2
      · obtain ⟨d, hd, hq⟩ := List.mem_flatMap.mp h
        obtain ⟨q, hq2, rfl⟩ := List.mem_map.mp hq
        exact absurd rfl hne

end AsyncFTP

namespace AsyncFTP

/-- C7 counterexample: a listing error inside a recursively enumerated
subdirectory is NOT yielded with its non-null error.  The root lists a
subdirectory whose own listing fails; the recursive stream of that
subdirectory is re-yielded by the parent with `yield data, None`, so the
consumer receives the pair (None, None): a null entry with a NULL error,
and no pair of the whole enumeration carries any error. -/
theorem c7_counterexample :
    srvC7 "/dir1" = ([], some (.ftpException "boom"))
    ∧ enum_all srvC7 none 3 "/" = [(some entD, none), (some entA, none), (none, none)]
    ∧ (∀ p ∈ enum_all srvC7 none 3 "/", p.2 = none) := by
  refine ⟨by decide, by decide, by decide⟩

/-- C7 amended: every error in an enum_all stream is paired with a null
entry; a listing error in the current call's own stream is yielded as a
(null entry, that error) pair, after which the pending sibling
subdirectories are still enumerated, but the items of those recursive
streams are re-yielded with their error component replaced by null, so an
error below the top level is lost. -/
theorem c7_amended (srv : FTPServer) (filt : Option (FactVal → PyDict → Bool))
    (depth : Int) (path : String) :
    (∀ p ∈ enum_all srv filt depth path, p.2 ≠ none → p.1 = none)
    ∧ (∀ es e, srv path = (es, some e) → (enumLevel filt depth es).2.2 = none →
        enum_all srv filt depth path
          = (enumLevel filt depth es).1 ++ [(none, some e)]
              ++ (enumLevel filt depth es).2.1.flatMap
                   (fun d => (enum_all srv filt (depth - 1) d).map (fun q => (q.1, none)))) := by
  constructor
  · intro p hp hne
    exact enum_allAux_err_null srv filt (depth.toNat + 1) depth path p hp hne
  · intro es e hsrv hexc
    rw [enum_all_eq srv filt depth path, hsrv]
    simp only [hexc]

/-- Witness for C7's amended statement on the concrete server: the error of
the subdirectory listing surfaces, as a (None, error) pair, only when that
directory is enumerated directly at top level. -/
theorem c7_amended_witness :
    enum_all srvC7 none 2 "/dir1" = [(none, some (.ftpException "boom"))]
    ∧ ((none, some (PyErr.ftpException "boom")) : EnumItem).1 = none := by
  constructor
  · have h := (c7_amended srvC7 none 2 "/dir1").2 [] (.ftpException "boom") (by decide) (by decide)
    simpa using h
  · exact (c7_amended srvC7 none 2 "/dir1").1 (none, some (.ftpException "boom"))
      (by decide) (by decide)

end AsyncFTP

namespace AsyncFTP

/-- Splitting a string constructor over list append. -/
theorem string_mk_append (a b : List Char) : (⟨a ++ b⟩ : String) = ⟨a⟩ ++ ⟨b⟩ := rfl

/-- Stripping is unaffected by one trailing carriage return. -/
theorem pyStripL_append_cr (l : List Char) : pyStripL (l ++ ['\r']) = pyStripL l := by
  simp only [pyStripL, List.reverse_append, List.reverse_cons, List.reverse_nil,
    List.nil_append, List.singleton_append]
  rw [List.dropWhile_cons_of_pos (by decide)]

/-- Stripping is unaffected by one trailing carriage return (String form). -/
theorem pyStrip_append_cr (s : String) : pyStrip (s ++ "\r") = pyStrip s := by
  simp only [pyStrip, String.data_append]
  rw [pyStripL_append_cr]

/-- A list is a Boolean prefix of itself followed by anything. -/
theorem isPrefixOf_self_append (l r : List Char) : l.isPrefixOf (l ++ r) = true := by
  induction l with
  | nil => simp [List.isPrefixOf]
  | cons c cs ih => simp [List.isPrefixOf, ih]

/-- The framer peels off one complete line at the first LF. -/
theorem process_buffer_line (l rest : List Char) (h : '\n' ∉ l) :
    process_buffer (l ++ '\n' :: rest)
      = (l :: (process_buffer rest).1, (process_buffer rest).2) := by
  induction l with
  | nil => simp [process_buffer]
  | cons c cs ih =>
    have hc : ¬(c = '\n') := fun e => h (e ▸ List.mem_cons_self c cs)
    have h2 : '\n' ∉ cs := fun hm => h (List.mem_cons_of_mem c hm)
    simp only [List.cons_append, process_buffer, List.append_eq, ih h2, if_neg hc]

/-- The framer turns a CRLF-joined wire stream of LF-free lines into the
lines themselves, each keeping its trailing CR. -/
theorem frameLines_wire (lines : List String) (h : ∀ l ∈ lines, '\n' ∉ l.data) :
    frameLines (wire lines) = lines.map (fun l => l ++ "\r") := by
  induction lines with
  | nil => rfl
  | cons x xs ih =>
    have hx : '\n' ∉ x.data := h x (List.mem_cons_self x xs)
    have hxs : ∀ l ∈ xs, '\n' ∉ l.data := fun l hl => h l (List.mem_cons_of_mem x hl)
    have hdata : (wire (x :: xs)).data = (x.data ++ ['\r']) ++ '\n' :: (wire xs).data := by
      show (x ++ "\r\n" ++ wire xs).data = _
      simp [String.data_append, List.append_assoc]
    have hline : '\n' ∉ x.data ++ ['\r'] := by
      intro hm
      rcases List.mem_append.mp hm with hm | hm
      · exact hx hm
      · simp at hm
    simp only [frameLines, hdata, process_buffer_line _ _ hline, List.map_cons]
    show (⟨x.data ++ ['\r']⟩ : String) :: frameLines (wire xs) = _
    rw [show (⟨x.data ++ ['\r']⟩ : String) = x ++ "\r" from rfl, ih hxs]

end AsyncFTP

namespace AsyncFTP

/-- The reply-reader loop over LF-free continuation lines: each intermediate
line (still carrying its CR) is kept verbatim because it does not start with
the code-and-space prefix; the terminal line matches the prefix, and the text
after the prefix is stripped. -/
theorem readResponseLoop_wire (code c : String) (bs : List String)
    (hbs : ∀ b ∈ bs, pyStartsWith (b ++ "\r") (code ++ " ") = false) :
    readResponseLoop code (bs.map (fun b => b ++ "\r") ++ [(code ++ " " ++ c) ++ "\r"])
      = bs.map (fun b => b ++ "\r") ++ [pyStrip c] := by
  induction bs with
  | nil =>
    simp only [List.map_nil, List.nil_append, readResponseLoop]
    have hpre : pyStartsWith ((code ++ " " ++ c) ++ "\r") (code ++ " ") = true := by
      simp only [pyStartsWith, String.data_append]
      rw [List.append_assoc]
      exact isPrefixOf_self_append _ _
    rw [if_pos hpre]
    have hslice : pySlice ((code ++ " " ++ c) ++ "\r") (pyLen code + 1) = c ++ "\r" := by
      simp only [pySlice, pyLen, String.data_append]
      rw [List.append_assoc (code.data ++ (" ").data)]
      rw [show code.data.length + 1 = (code.data ++ (" ").data).length from by simp]
      rw [List.drop_left]
      rfl
    rw [hslice, pyStrip_append_cr]
  | cons b bs ih =>
    have hb := hbs b (List.mem_cons_self b bs)
    have hbs2 : ∀ x ∈ bs, pyStartsWith (x ++ "\r") (code ++ " ") = false :=
      fun x hx => hbs x (List.mem_cons_of_mem b hx)
    simp only [List.map_cons, List.cons_append, List.append_eq, readResponseLoop, hb,
      Bool.false_eq_true, if_false]
    rw [ih hbs2]

end AsyncFTP

namespace AsyncFTP

/-- Unfolding equation of readResponse on a nonempty line stream. -/
theorem readResponse_cons (f : String) (r : List String) :
    readResponse (f :: r)
      = if pyLen f < 4 then .error .indexError
        else if (pyAt? f 3 == some '-') = true then
          .ok ⟨some (pyTake f 3), pyStrip (pySlice f 4) :: readResponseLoop (pyTake f 3) r⟩
        else .ok ⟨some (pyTake f 3), [pyStrip (pySlice f 4)]⟩ := by
  rw [readResponse]

/-- C1 counterexample: on the reference multi-line byte stream, the framer
leaves the trailing CR on every framed line and the reply reader appends the
intermediate line verbatim, so the assembled messages are [a, b CR, c], not
[a, b, c]: the middle message keeps its carriage return. -/
theorem c1_counterexample :
    ftpReplyOfStream "227-a\r\nb\r\n227 c\r\n" = .ok ⟨some "227", ["a", "b\r", "c"]⟩
    ∧ (["a", "b\r", "c"] : List String) ≠ ["a", "b", "c"] :=
  ⟨by decide, by decide⟩

/-- C1 amended: for every well-formed multi-line reply on the wire, framed
and read, the code is the first three characters, the first-line text after
the code-dash prefix is stripped and appended, every intermediate line is
appended verbatim as framed, that is, still carrying its CR terminator
remnant, and the terminal code-space line has its text after the prefix
stripped and appended, whereupon reading stops. -/
theorem c1_multiline_reply (code a c : String) (bs : List String)
    (hlen : pyLen code = 3)
    (hcode : '\n' ∉ code.data) (ha : '\n' ∉ a.data) (hc : '\n' ∉ c.data)
    (hbs : ∀ b ∈ bs, '\n' ∉ b.data ∧ pyStartsWith (b ++ "\r") (code ++ " ") = false) :
    ftpReplyOfStream (wire ((code ++ "-" ++ a) :: bs ++ [code ++ " " ++ c]))
      = .ok ⟨some code, pyStrip a :: (bs.map (fun b => b ++ "\r") ++ [pyStrip c])⟩ := by
  obtain ⟨x, y, z, hxyz⟩ := List.length_eq_three.mp hlen
  have hlines : ∀ l ∈ (code ++ "-" ++ a) :: bs ++ [code ++ " " ++ c], '\n' ∉ l.data := by
    intro l hl
    rcases List.mem_append.mp hl with hl | hl
    · rcases List.mem_cons.mp hl with rfl | hl
      · simp only [String.data_append]
        intro hm
        rcases List.mem_append.mp hm with hm | hm
        · rcases List.mem_append.mp hm with hm | hm
          · exact hcode hm
          · simp at hm
        · exact ha hm
      · exact (hbs l hl).1
    · rcases List.mem_singleton.mp hl with rfl
      simp only [String.data_append]
      intro hm
      rcases List.mem_append.mp hm with hm | hm
      · rcases List.mem_append.mp hm with hm | hm
        · exact hcode hm
        · simp at hm
      · exact hc hm
  rw [ftpReplyOfStream, frameLines_wire _ hlines]
  simp only [List.map_cons, List.map_append, List.map_nil, List.cons_append]
  have hfd : ((code ++ "-" ++ a) ++ "\r").data = x :: y :: z :: '-' :: (a.data ++ ['\r']) := by
    simp [String.data_append, hxyz]
  rw [readResponse_cons]
  rw [if_neg (by simp only [pyLen, hfd, List.length_cons]; omega)]
  rw [show (pyAt? ((code ++ "-" ++ a) ++ "\r") 3 == some '-') = true from by
    simp [pyAt?, hfd]]
  have htake : pyTake ((code ++ "-" ++ a) ++ "\r") 3 = code := by
    simp only [pyTake, hfd]
    rw [show (x :: y :: z :: '-' :: (a.data ++ ['\r'])).take 3 = [x, y, z] from rfl, ← hxyz]
  have hslice : pySlice ((code ++ "-" ++ a) ++ "\r") 4 = a ++ "\r" := by
    simp only [pySlice, hfd]
    rw [show (x :: y :: z :: '-' :: (a.data ++ ['\r'])).drop 4 = a.data ++ ['\r'] from rfl]
    rfl
  rw [if_pos rfl]
  rw [htake, hslice, pyStrip_append_cr,
    readResponseLoop_wire code c bs (fun b hb => (hbs b hb).2)]

/-- Witness for C1's amended statement at the reference reply: code 227,
first line a, one intermediate line b, terminal line c. -/
theorem c1_multiline_reply_witness :
    ftpReplyOfStream (wire (("227" ++ "-" ++ "a") :: ["b"] ++ ["227" ++ " " ++ "c"]))
      = .ok ⟨some "227", pyStrip "a" :: (["b"].map (fun b => b ++ "\r") ++ [pyStrip "c"])⟩ :=
  c1_multiline_reply "227" "a" "c" ["b"] (by decide) (by decide) (by decide) (by decide)
    (by decide)

end AsyncFTP
